import Mathlib

/-!
Shallow embedding of `register_terminal_reader.py`, the Stripe Terminal
reader registration script: three sequential HTTP operations
(`verify_location`, `list_existing_readers`, `register_terminal_reader`)
plus the `__main__` workflow that drives them.

Modelling conventions:
* A JSON value is the inductive `Json`; a Python `resp.json()` call that
  fails to parse is modelled by the response carrying `none` as its body.
* A network call either yields an `HttpResponse` or raises a transport
  exception carrying a message (`NetResult.exn`).
* Each Python function is split into the body of its `try` block, which
  returns the console lines printed so far together with either a value or
  a raised exception (`Except String`), and the full function, which wraps
  that body with the `except` handler exactly as the source does.
* Console output is modelled as the list of printed lines; issued HTTP
  requests are recorded as `Request` values.  Exception message texts for
  `KeyError` and `TypeError` are abstracted to a tag plus the offending
  key, since the script only interpolates them into a generic error line.
* The source hardcodes `STRIPE_SECRET_KEY`; the value the operator leaves
  in that constant is a parameter `key` of the workflow, compared against
  the shipped placeholder.
-/

set_option autoImplicit false

namespace RegisterReaderScript

/-- A JSON value, as produced by `response.json()`. -/
inductive Json where
  | str : String → Json
  | num : Int → Json
  | bool : Bool → Json
  | null : Json
  | arr : List Json → Json
  | obj : List (String × Json) → Json

/-- Python subscription `j[k]` on a JSON value: a lookup that succeeds only
on an object holding the key.  Subscripting a non-object (Python
`TypeError`) and a missing key (Python `KeyError`) both yield `none`. -/
def Json.get : Json → String → Option Json
  | .obj fields, k => fields.lookup k
  | _, _ => none

/-- Python truthiness of a JSON value (`if not location:` in the source). -/
def Json.truthy : Json → Bool
  | .str s => !(s == "")
  | .num n => !(n == 0)
  | .bool b => b
  | .null => false
  | .arr xs => !xs.isEmpty
  | .obj fields => !fields.isEmpty

/-- Python `str()` of a JSON value, as interpolated into an f-string.
String and number scalars render exactly as Python does; the rendering of
containers, booleans and null is abstracted (no claim depends on it). -/
def Json.pyStr : Json → String
  | .str s => s
  | .num n => toString n
  | .bool b => if b then "True" else "False"
  | .null => "None"
  | .arr _ => "[...]"
  | .obj _ => "(dict)"

/-- The placeholder shipped in the `STRIPE_SECRET_KEY` constant. -/
def PLACEHOLDER_KEY : String := "sk_live_YOUR_SECRET_KEY_HERE"

def LOCATION_ID : String := "tml_GKsXoQ8u9cFZJF"

def STRIPE_API_URL : String := "https://api.stripe.com/v1"

inductive Method where
  | get
  | post
deriving DecidableEq, Repr

/-- An HTTP request as issued by `requests.get` / `requests.post`:
method, URL, header pairs, and form-encoded body pairs (empty for GET). -/
structure Request where
  method : Method
  url : String
  headers : List (String × String)
  data : List (String × String)
deriving DecidableEq, Repr

/-- An HTTP response: status code, parsed JSON body (`none` when
`response.json()` raises), and raw text. -/
structure HttpResponse where
  status_code : Nat
  body : Option Json
  text : String

/-- Outcome of attempting a network call: a response, or a transport
exception with its message. -/
inductive NetResult where
  | ok : HttpResponse → NetResult
  | exn : String → NetResult

/-- Result of running one of the script functions: its Python return
value, the console lines it printed, and the requests it issued. -/
structure FnResult (α : Type) where
  value : α
  output : List String
  requests : List Request

/-- Abstracted text of a Python `KeyError` / `TypeError` raised by
subscripting for key `k`. -/
def keyErr (k : String) : String := "KeyError: " ++ k

/-- Abstracted text of the `json.JSONDecodeError` raised by
`response.json()` on an unparseable body. -/
def JSON_DECODE_MSG : String := "JSONDecodeError: Expecting value"

/-! ## register_terminal_reader -/

/-- The form data of the reader-creation POST (source lines 25-32). -/
def registerData : List (String × String) :=
  [("type", "tap_to_pay_android"),
   ("location", LOCATION_ID),
   ("label", "Ohr Shalom Donation Kiosk"),
   ("metadata[tablet_id]", "ohr-shalom-tablet-001"),
   ("metadata[app_version]", "1.8.3-terminal-fixed"),
   ("metadata[purpose]", "donation_kiosk")]

/-- The POST request issued by `register_terminal_reader`. -/
def registerRequest (key : String) : Request :=
  { method := .post,
    url := STRIPE_API_URL ++ "/terminal/readers",
    headers := [("Authorization", "Bearer " ++ key),
                ("Content-Type", "application/x-www-form-urlencoded")],
    data := registerData }

/-- Body of the `try` block of `register_terminal_reader` (source lines
38-57): lines printed inside the block so far, and either the Python
return value (`some reader` on HTTP 200, `none` on the non-200 branch) or
a raised exception. -/
def registerTryBody (net : NetResult) : List String × Except String (Option Json) :=
  match net with
  | .exn e => ([], .error e)
  | .ok response =>
    if response.status_code == 200 then
      match response.body with
      | none => ([], .error JSON_DECODE_MSG)
      | some reader =>
        let out := ["✅ Terminal reader registered successfully!"]
        match reader.get "id" with
        | none => (out, .error (keyErr "id"))
        | some v1 =>
        let out := out ++ ["📱 Reader ID: " ++ v1.pyStr]
        match reader.get "device_type" with
        | none => (out, .error (keyErr "device_type"))
        | some v2 =>
        let out := out ++ ["🔗 Device Type: " ++ v2.pyStr]
        match reader.get "location" with
        | none => (out, .error (keyErr "location"))
        | some v3 =>
        let out := out ++ ["📍 Location: " ++ v3.pyStr]
        match reader.get "status" with
        | none => (out, .error (keyErr "status"))
        | some v4 =>
        (out ++ ["📊 Status: " ++ v4.pyStr], .ok (some reader))
    else
      (["❌ Registration failed: HTTP " ++ toString response.status_code,
        "Error: " ++ response.text], .ok none)

/-- The caught-exception line of `register_terminal_reader`. -/
def registerCatchLine (e : String) : String := "❌ Error registering reader: " ++ e

/-- The three banner lines `register_terminal_reader` prints before its
`try` block (source lines 34-36). -/
def registerPre : List String :=
  ["🔄 Registering tablet as Terminal reader...",
   "📍 Location: " ++ LOCATION_ID,
   "🏷️  Label: Ohr Shalom Donation Kiosk"]

/-- `register_terminal_reader` (source lines 16-61): prints its banner,
issues the single POST, and wraps the `try` body with the handler that
turns any exception into a printed error and a `None` return. -/
def register_terminal_reader (key : String) (net : NetResult) : FnResult (Option Json) :=
  match registerTryBody net with
  | (tryOut, .ok v) => ⟨v, registerPre ++ tryOut, [registerRequest key]⟩
  | (tryOut, .error e) =>
      ⟨none, registerPre ++ tryOut ++ [registerCatchLine e], [registerRequest key]⟩

/-! ## list_existing_readers -/

/-- The GET request issued by `list_existing_readers`. -/
def listRequest (key : String) : Request :=
  { method := .get,
    url := STRIPE_API_URL ++ "/terminal/readers",
    headers := [("Authorization", "Bearer " ++ key)],
    data := [] }

/-- The per-reader print loop of `list_existing_readers` (source lines
80-82): prints two lines per reader, raising on a missing field. -/
def listReadersLoop : List Json → List String × Except String Unit
  | [] => ([], .ok ())
  | reader :: rest =>
    match reader.get "id" with
    | none => ([], .error (keyErr "id"))
    | some i =>
    match reader.get "label" with
    | none => ([], .error (keyErr "label"))
    | some lb =>
    match reader.get "device_type" with
    | none => ([], .error (keyErr "device_type"))
    | some dt =>
    let line1 := "  📱 " ++ (i.pyStr ++ (" - " ++ (lb.pyStr ++ (" (" ++ (dt.pyStr ++ ")")))))
    match reader.get "location" with
    | none => ([line1], .error (keyErr "location"))
    | some loc =>
    match reader.get "status" with
    | none => ([line1], .error (keyErr "status"))
    | some st =>
    let line2 := "     Location: " ++ (loc.pyStr ++ (" - Status: " ++ st.pyStr))
    let (out, r) := listReadersLoop rest
    (line1 :: line2 :: out, r)

/-- Body of the `try` block of `list_existing_readers` (source lines
70-87).  `len` of and iteration over a non-list `data` value is modelled
as a raised `TypeError`. -/
def listTryBody (net : NetResult) : List String × Except String (List Json) :=
  match net with
  | .exn e => ([], .error e)
  | .ok response =>
    if response.status_code == 200 then
      match response.body with
      | none => ([], .error JSON_DECODE_MSG)
      | some readers =>
        match readers.get "data" with
        | none => ([], .error (keyErr "data"))
        | some d =>
          match d with
          | .arr xs =>
            let countLine := "\n📋 Found " ++ (toString xs.length ++ " existing readers:")
            let (out, r) := listReadersLoop xs
            match r with
            | .ok _ => (countLine :: out, .ok xs)
            | .error e => (countLine :: out, .error e)
          | _ => ([], .error (keyErr "data"))
    else
      (["❌ Failed to list readers: HTTP " ++ toString response.status_code], .ok [])

/-- The caught-exception line of `list_existing_readers`. -/
def listCatchLine (e : String) : String := "❌ Error listing readers: " ++ e

/-- `list_existing_readers` (source lines 63-91). -/
def list_existing_readers (key : String) (net : NetResult) : FnResult (List Json) :=
  match listTryBody net with
  | (tryOut, .ok v) => ⟨v, tryOut, [listRequest key]⟩
  | (tryOut, .error e) => ⟨[], tryOut ++ [listCatchLine e], [listRequest key]⟩

/-! ## verify_location -/

/-- The GET request issued by `verify_location`. -/
def verifyRequest (key : String) : Request :=
  { method := .get,
    url := STRIPE_API_URL ++ ("/terminal/locations/" ++ LOCATION_ID),
    headers := [("Authorization", "Bearer " ++ key)],
    data := [] }

/-- Body of the `try` block of `verify_location` (source lines 100-113).
Each f-string evaluates its subscriptions before printing, so a missing
field raises before the corresponding line appears. -/
def verifyTryBody (net : NetResult) : List String × Except String (Option Json) :=
  match net with
  | .exn e => ([], .error e)
  | .ok response =>
    if response.status_code == 200 then
      match response.body with
      | none => ([], .error JSON_DECODE_MSG)
      | some location =>
        match location.get "display_name" with
        | none => ([], .error (keyErr "display_name"))
        | some dn =>
        let out := ["✅ Location verified: " ++ dn.pyStr]
        match location.get "address" with
        | none => (out, .error (keyErr "address"))
        | some addr =>
        match addr.get "line1" with
        | none => (out, .error (keyErr "line1"))
        | some l1 =>
        match addr.get "city" with
        | none => (out, .error (keyErr "city"))
        | some city =>
        (out ++ ["📍 Address: " ++ (l1.pyStr ++ (", " ++ city.pyStr))], .ok (some location))
    else
      (["❌ Location verification failed: HTTP " ++ toString response.status_code], .ok none)

/-- The caught-exception line of `verify_location`. -/
def verifyCatchLine (e : String) : String := "❌ Error verifying location: " ++ e

/-- `verify_location` (source lines 93-117). -/
def verify_location (key : String) (net : NetResult) : FnResult (Option Json) :=
  match verifyTryBody net with
  | (tryOut, .ok v) => ⟨v, tryOut, [verifyRequest key]⟩
  | (tryOut, .error e) => ⟨none, tryOut ++ [verifyCatchLine e], [verifyRequest key]⟩

/-! ## The `__main__` workflow -/

/-- One run environment: the value left in the `STRIPE_SECRET_KEY`
constant and the network outcome each of the three calls would see. -/
structure Env where
  key : String
  locResp : NetResult
  listResp : NetResult
  regResp : NetResult

/-- Observable outcome of one run of the script: process exit code,
console lines, and the HTTP requests issued, in order. -/
structure RunResult where
  exitCode : Nat
  output : List String
  requests : List Request

/-- The `__main__` block (source lines 119-149).  `sys.exit(1)` is
modelled by returning exit code 1 at that point; falling off the end is
exit code 0.  The `reader['id']` subscription on line 145 sits outside
any handler, so its failure would be an uncaught exception: the
interpreter would print a traceback and exit with status 1, modelled by
the inner `none` branch. -/
def run (env : Env) : RunResult :=
  let out := ["🚀 Stripe Terminal Reader Registration",
              String.mk (List.replicate 50 '=')]
  if env.key == PLACEHOLDER_KEY then
    { exitCode := 1,
      output := out ++
        ["❌ Please update STRIPE_SECRET_KEY in the script with your actual secret key"],
      requests := [] }
  else
    let out := out ++ ["\n1️⃣ Verifying location..."]
    let v := verify_location env.key env.locResp
    let out := out ++ v.output
    let reqs := v.requests
    let locTruthy := match v.value with
      | some j => j.truthy
      | none => false
    if !locTruthy then
      { exitCode := 1,
        output := out ++ ["❌ Cannot proceed without valid location"],
        requests := reqs }
    else
      let out := out ++ ["\n2️⃣ Checking existing readers..."]
      let l := list_existing_readers env.key env.listResp
      let out := out ++ l.output
      let reqs := reqs ++ l.requests
      let out := out ++ ["\n3️⃣ Registering tablet as Terminal reader..."]
      let r := register_terminal_reader env.key env.regResp
      let out := out ++ r.output
      let reqs := reqs ++ r.requests
      match r.value with
      | some reader =>
        if reader.truthy then
          match reader.get "id" with
          | some rid =>
            { exitCode := 0,
              output := out ++
                ["\n🎯 Next Steps:",
                 "1. The tablet should now appear in your Stripe Dashboard under Terminal > Readers",
                 "2. Reader ID: " ++ rid.pyStr,
                 "3. Test NFC payment processing on the tablet",
                 "4. Check Terminal status in the admin interface"],
              requests := reqs }
          | none =>
            { exitCode := 1, output := out, requests := reqs }
        else
          { exitCode := 0,
            output := out ++
              ["\n❌ Registration failed. Please check your Stripe credentials and try again."],
            requests := reqs }
      | none =>
        { exitCode := 0,
          output := out ++
            ["\n❌ Registration failed. Please check your Stripe credentials and try again."],
          requests := reqs }

/-- Modelled from the spec: the behaviour of the remote payments API on
the requests this script issues — it "creates exactly one remote resource
per successful call" with a fresh opaque ID assigned by the service, and
"no idempotency key is used", so no deduplication of identical create
requests takes place (spec sections 3, 4.1 and 9; the remote service is
not part of this repository).  Resources are numbered in order of
creation, so each POST in the request list yields one reader resource
with a fresh identifier. -/
def remoteReaders (reqs : List Request) : List Nat :=
  List.range (reqs.filter (fun r => r.method == .post)).length

/-! ## Helper definitions mirroring the tail of `__main__`

These mirror the final branches of `run` so that lemmas about a verified
run can be stated without fixing the registration outcome. -/

/-- Lines printed after step 3, as a function of the value
`register_terminal_reader` returned. -/
def mainTail (r : Option Json) : List String :=
  match r with
  | some reader =>
    if reader.truthy then
      match reader.get "id" with
      | some rid =>
        ["\n🎯 Next Steps:",
         "1. The tablet should now appear in your Stripe Dashboard under Terminal > Readers",
         "2. Reader ID: " ++ rid.pyStr,
         "3. Test NFC payment processing on the tablet",
         "4. Check Terminal status in the admin interface"]
      | none => []
    else ["\n❌ Registration failed. Please check your Stripe credentials and try again."]
  | none => ["\n❌ Registration failed. Please check your Stripe credentials and try again."]

/-- Process exit code as a function of the value
`register_terminal_reader` returned (in a verified run). -/
def mainExit (r : Option Json) : Nat :=
  match r with
  | some reader =>
    if reader.truthy then
      match reader.get "id" with
      | some _ => 0
      | none => 1
    else 0
  | none => 0

/-! ## Basic lemmas -/

lemma Json.truthy_of_get {j : Json} {k : String} {v : Json} (h : j.get k = some v) :
    j.truthy = true := by
  cases j with
  | obj fields =>
    cases fields with
    | nil => simp [Json.get, List.lookup] at h
    | cons p rest => simp [Json.truthy, List.isEmpty]
  | str s => simp [Json.get] at h
  | num n => simp [Json.get] at h
  | bool b => simp [Json.get] at h
  | null => simp [Json.get] at h
  | arr xs => simp [Json.get] at h

/-- A string starting with the concrete piece `p` cannot equal a string
`q` when `q` does not start with `p`. -/
lemma string_append_ne (p x q : String)
    (h : q.data.take p.data.length ≠ p.data) : p ++ x ≠ q := by
  intro he
  apply h
  have hd : p.data ++ x.data = q.data := by
    rw [← String.data_append, he]
  rw [← hd, List.take_left]

lemma verify_location_requests (key : String) (net : NetResult) :
    (verify_location key net).requests = [verifyRequest key] := by
  unfold verify_location
  split <;> rfl

lemma list_existing_readers_requests (key : String) (net : NetResult) :
    (list_existing_readers key net).requests = [listRequest key] := by
  unfold list_existing_readers
  split <;> rfl

lemma register_terminal_reader_requests (key : String) (net : NetResult) :
    (register_terminal_reader key net).requests = [registerRequest key] := by
  unfold register_terminal_reader
  split <;> rfl

/-- A reader value returned by the `try` body of `register_terminal_reader`
holds all four printed fields. -/
lemma registerTryBody_ok_some {net : NetResult} {out : List String} {j : Json}
    (h : registerTryBody net = (out, .ok (some j))) :
    (∃ v, j.get "id" = some v) ∧ (∃ v, j.get "device_type" = some v) ∧
      (∃ v, j.get "location" = some v) ∧ (∃ v, j.get "status" = some v) := by
  unfold registerTryBody at h
  repeat' split at h
  all_goals simp_all

/-- A reader returned by `register_terminal_reader` holds the `id` field
and is truthy: the `reader['id']` subscription and the `if reader:` test
in `__main__` succeed on it. -/
lemma register_value_some {key : String} {net : NetResult} {j : Json}
    (h : (register_terminal_reader key net).value = some j) :
    (∃ v, j.get "id" = some v) ∧ j.truthy = true := by
  unfold register_terminal_reader at h
  split at h <;> simp_all
  rename_i heq
  obtain ⟨⟨v, hv⟩, -, -, -⟩ := registerTryBody_ok_some heq
  exact ⟨⟨v, hv⟩, Json.truthy_of_get hv⟩

/-- A location value returned by the `try` body of `verify_location`
holds the `display_name` field. -/
lemma verifyTryBody_ok_get {net : NetResult} {out : List String} {j : Json}
    (h : verifyTryBody net = (out, .ok (some j))) :
    ∃ dn, j.get "display_name" = some dn := by
  unfold verifyTryBody at h
  repeat' split at h
  all_goals simp_all

/-- On success the `try` body of `verify_location` prints exactly the two
location lines. -/
lemma verifyTryBody_ok_out {net : NetResult} {out : List String} {j : Json}
    (h : verifyTryBody net = (out, .ok (some j))) :
    ∃ dn rest : String,
      out = ["✅ Location verified: " ++ dn, "📍 Address: " ++ rest] := by
  unfold verifyTryBody at h
  repeat' split at h
  all_goals simp_all
  exact ⟨_, _, h.1.symm⟩

/-- A location returned by `verify_location` is truthy, and the lines
printed for it are the two location lines. -/
lemma verify_value_some {key : String} {net : NetResult} {j : Json}
    (h : (verify_location key net).value = some j) :
    j.truthy = true ∧
      ∃ dn rest : String,
        (verify_location key net).output =
          ["✅ Location verified: " ++ dn, "📍 Address: " ++ rest] := by
  rcases htb : verifyTryBody net with ⟨tryOut, r⟩
  cases r with
  | error e => simp [verify_location, htb] at h
  | ok v =>
    have hv : v = some j := by simpa [verify_location, htb] using h
    subst hv
    obtain ⟨dn, hdn⟩ := verifyTryBody_ok_get htb
    obtain ⟨dns, rest, hout⟩ := verifyTryBody_ok_out htb
    refine ⟨Json.truthy_of_get hdn, dns, rest, ?_⟩
    simp [verify_location, htb, hout]

/-- Shape of a run that fails location verification: exit code 1, only
the location GET issued, and the abort line printed last. -/
lemma run_not_verified (env : Env)
    (hk : env.key ≠ PLACEHOLDER_KEY)
    (hv : (verify_location env.key env.locResp).value = none) :
    (run env).exitCode = 1 ∧
    (run env).requests = [verifyRequest env.key] ∧
    (run env).output =
      ["🚀 Stripe Terminal Reader Registration", String.mk (List.replicate 50 '='),
       "\n1️⃣ Verifying location..."] ++
      (verify_location env.key env.locResp).output ++
      ["❌ Cannot proceed without valid location"] := by
  have hk' : (env.key == PLACEHOLDER_KEY) = false := beq_eq_false_iff_ne.mpr hk
  simp [run, hk', hv, verify_location_requests]

/-- Shape of a run whose location verification succeeds: all three
requests issued in order, exit code and tail output determined by the
registration value. -/
lemma run_verified (env : Env) (j : Json)
    (hk : env.key ≠ PLACEHOLDER_KEY)
    (hv : (verify_location env.key env.locResp).value = some j)
    (ht : j.truthy = true) :
    (run env).exitCode = mainExit (register_terminal_reader env.key env.regResp).value ∧
    (run env).requests =
      [verifyRequest env.key, listRequest env.key, registerRequest env.key] ∧
    (run env).output =
      ["🚀 Stripe Terminal Reader Registration", String.mk (List.replicate 50 '='),
       "\n1️⃣ Verifying location..."] ++
      (verify_location env.key env.locResp).output ++
      ["\n2️⃣ Checking existing readers..."] ++
      (list_existing_readers env.key env.listResp).output ++
      ["\n3️⃣ Registering tablet as Terminal reader..."] ++
      (register_terminal_reader env.key env.regResp).output ++
      mainTail (register_terminal_reader env.key env.regResp).value := by
  have hk' : (env.key == PLACEHOLDER_KEY) = false := beq_eq_false_iff_ne.mpr hk
  rcases hr : (register_terminal_reader env.key env.regResp).value with _ | reader
  · simp [run, hk', hv, ht, hr, mainExit, mainTail,
      verify_location_requests, list_existing_readers_requests,
      register_terminal_reader_requests]
  · by_cases htr : reader.truthy = true
    · rcases hgr : reader.get "id" with _ | rid
      · simp [run, hk', hv, ht, hr, htr, hgr, mainExit, mainTail,
          verify_location_requests, list_existing_readers_requests,
          register_terminal_reader_requests]
      · simp [run, hk', hv, ht, hr, htr, hgr, mainExit, mainTail,
          verify_location_requests, list_existing_readers_requests,
          register_terminal_reader_requests]
    · simp [run, hk', hv, ht, hr, htr, mainExit, mainTail,
        verify_location_requests, list_existing_readers_requests,
        register_terminal_reader_requests]

/-! ## Failure-path lemmas -/

/-- A failed location lookup — transport exception or non-200 status —
makes `verify_location` return `None`. -/
lemma verify_value_none_of_fail {key : String} {net : NetResult}
    (h : (∃ e, net = .exn e) ∨ ∃ resp, net = .ok resp ∧ resp.status_code ≠ 200) :
    (verify_location key net).value = none := by
  rcases h with ⟨e, rfl⟩ | ⟨resp, rfl, hs⟩
  · rfl
  · simp [verify_location, verifyTryBody, hs]

/-- A failed enumeration call makes `list_existing_readers` return the
empty list. -/
lemma list_value_empty_of_fail {key : String} {net : NetResult}
    (h : (∃ e, net = .exn e) ∨ ∃ resp, net = .ok resp ∧ resp.status_code ≠ 200) :
    (list_existing_readers key net).value = [] := by
  rcases h with ⟨e, rfl⟩ | ⟨resp, rfl, hs⟩
  · rfl
  · simp [list_existing_readers, listTryBody, hs]

/-- A failed registration call makes `register_terminal_reader` return
`None`. -/
lemma register_value_none_of_fail {key : String} {net : NetResult}
    (h : (∃ e, net = .exn e) ∨ ∃ resp, net = .ok resp ∧ resp.status_code ≠ 200) :
    (register_terminal_reader key net).value = none := by
  rcases h with ⟨e, rfl⟩ | ⟨resp, rfl, hs⟩
  · rfl
  · simp [register_terminal_reader, registerTryBody, hs]

/-- Output of `register_terminal_reader` on a transport exception. -/
lemma register_output_of_exn (key e : String) :
    (register_terminal_reader key (.exn e)).output =
      registerPre ++ [registerCatchLine e] := rfl

/-- Output of `register_terminal_reader` on a non-200 response. -/
lemma register_output_of_non200 {key : String} {resp : HttpResponse}
    (hs : resp.status_code ≠ 200) :
    (register_terminal_reader key (.ok resp)).output =
      registerPre ++ ["❌ Registration failed: HTTP " ++ toString resp.status_code,
                      "Error: " ++ resp.text] := by
  simp [register_terminal_reader, registerTryBody, hs]

/-! ## Output shape lemmas (for the no-success-claim properties) -/

lemma listReadersLoop_out_shape (xs : List Json) :
    ∀ s ∈ (listReadersLoop xs).1,
      (∃ t, s = "  📱 " ++ t) ∨ (∃ t, s = "     Location: " ++ t) := by
  induction xs with
  | nil => intro s hs; simp [listReadersLoop] at hs
  | cons reader rest ih =>
    intro s hs
    unfold listReadersLoop at hs
    repeat' split at hs
    all_goals simp_all
    rcases hs with rfl | rfl | hs
    · exact Or.inl ⟨_, rfl⟩
    · exact Or.inr ⟨_, rfl⟩
    · exact ih s hs

lemma listReadersLoop_out_shape2 {xs : List Json} {out : List String}
    {r : Except String Unit} (heq : listReadersLoop xs = (out, r)) :
    ∀ s ∈ out, (∃ t, s = "  📱 " ++ t) ∨ (∃ t, s = "     Location: " ++ t) := by
  intro s hs
  apply listReadersLoop_out_shape xs s
  rw [heq]
  exact hs

lemma listTryBody_out_shape (net : NetResult) :
    ∀ s ∈ (listTryBody net).1,
      (∃ t, s = "\n📋 Found " ++ t) ∨ (∃ t, s = "  📱 " ++ t) ∨
      (∃ t, s = "     Location: " ++ t) ∨
      (∃ t, s = "❌ Failed to list readers: HTTP " ++ t) := by
  intro s hs
  unfold listTryBody at hs
  repeat' split at hs
  all_goals simp_all
  all_goals
    rename_i heq
    rcases hs with rfl | hs
    · exact Or.inl ⟨_, rfl⟩
    · rcases listReadersLoop_out_shape2 heq s hs with ⟨t, rfl⟩ | ⟨t, rfl⟩
      · exact Or.inr (Or.inl ⟨t, rfl⟩)
      · exact Or.inr (Or.inr (Or.inl ⟨t, rfl⟩))

lemma listTryBody_out_shape2 {net : NetResult} {out : List String}
    {r : Except String (List Json)} (heq : listTryBody net = (out, r)) :
    ∀ s ∈ out,
      (∃ t, s = "\n📋 Found " ++ t) ∨ (∃ t, s = "  📱 " ++ t) ∨
      (∃ t, s = "     Location: " ++ t) ∨
      (∃ t, s = "❌ Failed to list readers: HTTP " ++ t) := by
  intro s hs
  apply listTryBody_out_shape net s
  rw [heq]
  exact hs

/-- Every line `list_existing_readers` can print starts with one of five
fixed pieces, none of which opens a success message of another step. -/
lemma list_output_shape (key : String) (net : NetResult) :
    ∀ s ∈ (list_existing_readers key net).output,
      (∃ t, s = "\n📋 Found " ++ t) ∨ (∃ t, s = "  📱 " ++ t) ∨
      (∃ t, s = "     Location: " ++ t) ∨
      (∃ t, s = "❌ Failed to list readers: HTTP " ++ t) ∨
      (∃ t, s = "❌ Error listing readers: " ++ t) := by
  intro s hs
  unfold list_existing_readers at hs
  split at hs
  all_goals rename_i heq
  · rcases listTryBody_out_shape2 heq s hs with h | h | h | h
    · exact Or.inl h
    · exact Or.inr (Or.inl h)
    · exact Or.inr (Or.inr (Or.inl h))
    · exact Or.inr (Or.inr (Or.inr (Or.inl h)))
  · simp at hs
    rcases hs with hs | rfl
    · rcases listTryBody_out_shape2 heq s hs with h | h | h | h
      · exact Or.inl h
      · exact Or.inr (Or.inl h)
      · exact Or.inr (Or.inr (Or.inl h))
      · exact Or.inr (Or.inr (Or.inr (Or.inl h)))
    · exact Or.inr (Or.inr (Or.inr (Or.inr ⟨_, rfl⟩)))

/-! ## Concrete environments used by the witnesses -/

/-- A well-formed location body, as the location GET would return it. -/
def goodLocationBody : Json :=
  .obj [("display_name", .str "Ohr Shalom"),
        ("address", .obj [("line1", .str "123 Main St"),
                          ("city", .str "Springfield")])]

/-- A successful location lookup response. -/
def goodLocationResp : NetResult :=
  .ok { status_code := 200, body := some goodLocationBody, text := "" }

/-- A well-formed reader body, with the four fields of the spec example. -/
def goodReaderBody : Json :=
  .obj [("id", .str "tmr_123"),
        ("device_type", .str "tap_to_pay_android"),
        ("location", .str "tml_GKsXoQ8u9cFZJF"),
        ("status", .str "online")]

/-- A successful registration response. -/
def goodRegisterResp : NetResult :=
  .ok { status_code := 200, body := some goodReaderBody, text := "" }

/-- A successful, empty enumeration response. -/
def goodListResp : NetResult :=
  .ok { status_code := 200, body := some (.obj [("data", .arr [])]), text := "" }

/-- A non-placeholder credential. -/
def liveKey : String := "sk_live_abc123"

/-! ## Claims -/

/-- C1: If the credential constant STRIPE_SECRET_KEY still equals its
placeholder value, the program exits with status code 1 and performs zero
network calls (no request of any kind is issued). -/
theorem C1_placeholder_key_exits_one_no_requests (env : Env)
    (h : env.key = PLACEHOLDER_KEY) :
    (run env).exitCode = 1 ∧ (run env).requests = [] := by
  simp [run, h]

theorem C1_witness :
    (Env.mk PLACEHOLDER_KEY (.exn "err") (.exn "err") (.exn "err")).key
        = PLACEHOLDER_KEY ∧
      (run (Env.mk PLACEHOLDER_KEY (.exn "err") (.exn "err") (.exn "err"))).exitCode = 1 ∧
      (run (Env.mk PLACEHOLDER_KEY (.exn "err") (.exn "err") (.exn "err"))).requests = [] :=
  ⟨rfl, C1_placeholder_key_exits_one_no_requests _ rfl⟩

/-- C2: If the location lookup yields a non-success HTTP status or a
transport failure, `verify_location` returns an absent result and the
workflow aborts with exit code 1 before attempting reader enumeration or
reader registration: only the location GET is ever issued. -/
theorem C2_location_failure_aborts (env : Env)
    (hk : env.key ≠ PLACEHOLDER_KEY)
    (hfail : (∃ e, env.locResp = .exn e) ∨
      ∃ resp, env.locResp = .ok resp ∧ resp.status_code ≠ 200) :
    (verify_location env.key env.locResp).value = none ∧
    (run env).exitCode = 1 ∧
    (run env).requests = [verifyRequest env.key] := by
  have hv : (verify_location env.key env.locResp).value = none :=
    verify_value_none_of_fail hfail
  obtain ⟨h1, h2, -⟩ := run_not_verified env hk hv
  exact ⟨hv, h1, h2⟩

theorem C2_witness :
    liveKey ≠ PLACEHOLDER_KEY ∧ (401 : Nat) ≠ 200 ∧
      (verify_location liveKey (.ok ⟨401, none, "unauthorized"⟩)).value = none ∧
      (run (Env.mk liveKey (.ok ⟨401, none, "unauthorized"⟩)
          (.exn "never") (.exn "never"))).exitCode = 1 ∧
      (run (Env.mk liveKey (.ok ⟨401, none, "unauthorized"⟩)
          (.exn "never") (.exn "never"))).requests = [verifyRequest liveKey] :=
  ⟨by decide, by decide,
    C2_location_failure_aborts
      (Env.mk liveKey (.ok ⟨401, none, "unauthorized"⟩) (.exn "never") (.exn "never"))
      (by decide) (Or.inr ⟨_, rfl, by decide⟩)⟩

/-- C3: If location verification succeeds and the enumeration call fails
(non-success HTTP status or transport exception), `list_existing_readers`
returns the empty sequence and the workflow still issues the create
request. -/
theorem C3_enumeration_failure_nonfatal (env : Env) (j : Json)
    (hk : env.key ≠ PLACEHOLDER_KEY)
    (hv : (verify_location env.key env.locResp).value = some j)
    (hfail : (∃ e, env.listResp = .exn e) ∨
      ∃ resp, env.listResp = .ok resp ∧ resp.status_code ≠ 200) :
    (list_existing_readers env.key env.listResp).value = [] ∧
    (run env).requests =
      [verifyRequest env.key, listRequest env.key, registerRequest env.key] := by
  have ht := (verify_value_some hv).1
  obtain ⟨-, h2, -⟩ := run_verified env j hk hv ht
  exact ⟨list_value_empty_of_fail hfail, h2⟩

theorem C3_witness :
    liveKey ≠ PLACEHOLDER_KEY ∧
      (verify_location liveKey goodLocationResp).value = some goodLocationBody ∧
      (list_existing_readers liveKey (.exn "boom")).value = [] ∧
      (run (Env.mk liveKey goodLocationResp (.exn "boom")
          goodRegisterResp)).requests =
        [verifyRequest liveKey, listRequest liveKey, registerRequest liveKey] :=
  ⟨by decide, rfl,
    C3_enumeration_failure_nonfatal
      (Env.mk liveKey goodLocationResp (.exn "boom") goodRegisterResp)
      goodLocationBody (by decide) rfl (Or.inl ⟨_, rfl⟩)⟩

/-- C6: If the credential is not the placeholder and location verification
succeeds, the program terminates with exit code 0, regardless of the
outcomes of reader enumeration and reader registration. -/
theorem C6_exit_zero_after_verification (env : Env)
    (hk : env.key ≠ PLACEHOLDER_KEY)
    (hv : ∃ j, (verify_location env.key env.locResp).value = some j) :
    (run env).exitCode = 0 := by
  obtain ⟨j, hv⟩ := hv
  have ht := (verify_value_some hv).1
  obtain ⟨h1, -, -⟩ := run_verified env j hk hv ht
  rw [h1]
  rcases hr : (register_terminal_reader env.key env.regResp).value with _ | reader
  · rfl
  · obtain ⟨⟨v, hid⟩, htr⟩ := register_value_some hr
    simp [mainExit, htr, hid]

theorem C6_witness :
    liveKey ≠ PLACEHOLDER_KEY ∧
      (∃ j, (verify_location liveKey goodLocationResp).value = some j) ∧
      (run (Env.mk liveKey goodLocationResp (.exn "listdown") (.exn "regdown"))).exitCode
        = 0 :=
  ⟨by decide, ⟨goodLocationBody, rfl⟩,
    C6_exit_zero_after_verification
      (Env.mk liveKey goodLocationResp (.exn "listdown") (.exn "regdown"))
      (by decide) ⟨goodLocationBody, rfl⟩⟩

/-- C7: Each call to `register_terminal_reader` issues exactly one create
(POST) request with no retries and no idempotency key header; two calls
with identical arguments issue two create requests, and the remote
service (modelled from the spec) therefore creates two distinct reader
resources. -/
theorem C7_one_post_per_call_no_deduplication (key : String) (net : NetResult) :
    (register_terminal_reader key net).requests = [registerRequest key] ∧
    (registerRequest key).method = .post ∧
    (registerRequest key).headers.map Prod.fst = ["Authorization", "Content-Type"] ∧
    ((register_terminal_reader key net).requests ++
        (register_terminal_reader key net).requests) =
      [registerRequest key, registerRequest key] ∧
    remoteReaders ((register_terminal_reader key net).requests ++
        (register_terminal_reader key net).requests) = [0, 1] ∧
    (remoteReaders ((register_terminal_reader key net).requests ++
        (register_terminal_reader key net).requests)).Nodup := by
  have h := register_terminal_reader_requests key net
  refine ⟨h, rfl, rfl, ?_, ?_, ?_⟩
  · rw [h]; rfl
  · rw [h]; rfl
  · rw [h]
    simp [remoteReaders, registerRequest, List.nodup_range]

/-- C4: When the registration response is a success whose body holds the
fields id, device_type, location and status, `register_terminal_reader`
returns the reader, the run surfaces exactly those four field values (the
step prints nothing else about the reader) together with the Next Steps
block, and the run exits with code 0. -/
theorem C4_successful_registration_surfaces_fields (env : Env) (j : Json)
    (resp : HttpResponse) (reader i d l s : Json)
    (hk : env.key ≠ PLACEHOLDER_KEY)
    (hv : (verify_location env.key env.locResp).value = some j)
    (hr : env.regResp = .ok resp)
    (hst : resp.status_code = 200)
    (hb : resp.body = some reader)
    (h1 : reader.get "id" = some i)
    (h2 : reader.get "device_type" = some d)
    (h3 : reader.get "location" = some l)
    (h4 : reader.get "status" = some s) :
    (register_terminal_reader env.key env.regResp).value = some reader ∧
    (register_terminal_reader env.key env.regResp).output =
      registerPre ++
      ["✅ Terminal reader registered successfully!",
       "📱 Reader ID: " ++ i.pyStr,
       "🔗 Device Type: " ++ d.pyStr,
       "📍 Location: " ++ l.pyStr,
       "📊 Status: " ++ s.pyStr] ∧
    "📱 Reader ID: " ++ i.pyStr ∈ (run env).output ∧
    "🔗 Device Type: " ++ d.pyStr ∈ (run env).output ∧
    "📍 Location: " ++ l.pyStr ∈ (run env).output ∧
    "📊 Status: " ++ s.pyStr ∈ (run env).output ∧
    "\n🎯 Next Steps:" ∈ (run env).output ∧
    "2. Reader ID: " ++ i.pyStr ∈ (run env).output ∧
    (run env).exitCode = 0 := by
  have hval : (register_terminal_reader env.key env.regResp).value = some reader := by
    rw [hr]
    simp [register_terminal_reader, registerTryBody, hst, hb, h1, h2, h3, h4]
  have hout : (register_terminal_reader env.key env.regResp).output =
      registerPre ++
      ["✅ Terminal reader registered successfully!",
       "📱 Reader ID: " ++ i.pyStr,
       "🔗 Device Type: " ++ d.pyStr,
       "📍 Location: " ++ l.pyStr,
       "📊 Status: " ++ s.pyStr] := by
    rw [hr]
    simp [register_terminal_reader, registerTryBody, hst, hb, h1, h2, h3, h4]
  have ht := (verify_value_some hv).1
  obtain ⟨hexit, -, hrout⟩ := run_verified env j hk hv ht
  have htr : reader.truthy = true := Json.truthy_of_get h1
  have hmt : mainTail (register_terminal_reader env.key env.regResp).value =
      ["\n🎯 Next Steps:",
       "1. The tablet should now appear in your Stripe Dashboard under Terminal > Readers",
       "2. Reader ID: " ++ i.pyStr,
       "3. Test NFC payment processing on the tablet",
       "4. Check Terminal status in the admin interface"] := by
    rw [hval]
    simp [mainTail, htr, h1]
  refine ⟨hval, hout, ?_, ?_, ?_, ?_, ?_, ?_, ?_⟩
  · rw [hrout, hout]; simp
  · rw [hrout, hout]; simp
  · rw [hrout, hout]; simp
  · rw [hrout, hout]; simp
  · rw [hrout, hmt]; simp
  · rw [hrout, hmt]; simp
  · rw [hexit, hval]
    simp [mainExit, htr, h1]

theorem C4_witness :
    liveKey ≠ PLACEHOLDER_KEY ∧
      goodReaderBody.get "id" = some (.str "tmr_123") ∧
      goodReaderBody.get "device_type" = some (.str "tap_to_pay_android") ∧
      goodReaderBody.get "location" = some (.str "tml_GKsXoQ8u9cFZJF") ∧
      goodReaderBody.get "status" = some (.str "online") ∧
      ((register_terminal_reader liveKey goodRegisterResp).value = some goodReaderBody ∧
        (register_terminal_reader liveKey goodRegisterResp).output =
          registerPre ++
          ["✅ Terminal reader registered successfully!",
           "📱 Reader ID: " ++ (Json.str "tmr_123").pyStr,
           "🔗 Device Type: " ++ (Json.str "tap_to_pay_android").pyStr,
           "📍 Location: " ++ (Json.str "tml_GKsXoQ8u9cFZJF").pyStr,
           "📊 Status: " ++ (Json.str "online").pyStr] ∧
        "📱 Reader ID: " ++ (Json.str "tmr_123").pyStr ∈
          (run (Env.mk liveKey goodLocationResp goodListResp goodRegisterResp)).output ∧
        "🔗 Device Type: " ++ (Json.str "tap_to_pay_android").pyStr ∈
          (run (Env.mk liveKey goodLocationResp goodListResp goodRegisterResp)).output ∧
        "📍 Location: " ++ (Json.str "tml_GKsXoQ8u9cFZJF").pyStr ∈
          (run (Env.mk liveKey goodLocationResp goodListResp goodRegisterResp)).output ∧
        "📊 Status: " ++ (Json.str "online").pyStr ∈
          (run (Env.mk liveKey goodLocationResp goodListResp goodRegisterResp)).output ∧
        "\n🎯 Next Steps:" ∈
          (run (Env.mk liveKey goodLocationResp goodListResp goodRegisterResp)).output ∧
        "2. Reader ID: " ++ (Json.str "tmr_123").pyStr ∈
          (run (Env.mk liveKey goodLocationResp goodListResp goodRegisterResp)).output ∧
        (run (Env.mk liveKey goodLocationResp goodListResp goodRegisterResp)).exitCode
          = 0) :=
  ⟨by decide, rfl, rfl, rfl, rfl,
    C4_successful_registration_surfaces_fields
      (Env.mk liveKey goodLocationResp goodListResp goodRegisterResp)
      goodLocationBody ⟨200, some goodReaderBody, ""⟩ goodReaderBody
      (.str "tmr_123") (.str "tap_to_pay_android")
      (.str "tml_GKsXoQ8u9cFZJF") (.str "online")
      (by decide) rfl rfl rfl rfl rfl rfl rfl rfl⟩

/-- C8: If the registration response has HTTP status 200 but its body is
not valid JSON or lacks one of id, device_type, location, status,
`register_terminal_reader` returns an absent result and the run reports
registration failure — even though the create request was issued, so the
modelled remote has already created a reader resource. -/
theorem C8_success_status_malformed_body (env : Env) (j : Json) (resp : HttpResponse)
    (hk : env.key ≠ PLACEHOLDER_KEY)
    (hv : (verify_location env.key env.locResp).value = some j)
    (hr : env.regResp = .ok resp)
    (hst : resp.status_code = 200)
    (hbad : resp.body = none ∨
      ∃ reader, resp.body = some reader ∧
        (reader.get "id" = none ∨ reader.get "device_type" = none ∨
         reader.get "location" = none ∨ reader.get "status" = none)) :
    (register_terminal_reader env.key env.regResp).value = none ∧
    "\n❌ Registration failed. Please check your Stripe credentials and try again."
      ∈ (run env).output ∧
    registerRequest env.key ∈ (run env).requests ∧
    remoteReaders (run env).requests = [0] := by
  have hval : (register_terminal_reader env.key env.regResp).value = none := by
    rw [hr]
    rcases hbad with hb | ⟨reader, hb, hmiss⟩
    · simp [register_terminal_reader, registerTryBody, hst, hb]
    · rcases g1 : reader.get "id" with _ | v1
      · simp [register_terminal_reader, registerTryBody, hst, hb, g1]
      · rcases g2 : reader.get "device_type" with _ | v2
        · simp [register_terminal_reader, registerTryBody, hst, hb, g1, g2]
        · rcases g3 : reader.get "location" with _ | v3
          · simp [register_terminal_reader, registerTryBody, hst, hb, g1, g2, g3]
          · rcases g4 : reader.get "status" with _ | v4
            · simp [register_terminal_reader, registerTryBody, hst, hb, g1, g2, g3, g4]
            · simp [g1, g2, g3, g4] at hmiss
  have ht := (verify_value_some hv).1
  obtain ⟨-, hreqs, hrout⟩ := run_verified env j hk hv ht
  have hmt : mainTail (register_terminal_reader env.key env.regResp).value =
      ["\n❌ Registration failed. Please check your Stripe credentials and try again."] := by
    rw [hval]; rfl
  refine ⟨hval, ?_, ?_, ?_⟩
  · rw [hrout, hmt]; simp
  · rw [hreqs]; simp
  · rw [hreqs]
    rfl

theorem C8_witness :
    liveKey ≠ PLACEHOLDER_KEY ∧ (200 : Nat) = 200 ∧
      (Json.obj [("id", .str "tmr_123")]).get "status" = none ∧
      ((register_terminal_reader liveKey
          (.ok ⟨200, some (.obj [("id", .str "tmr_123")]), "ok"⟩)).value = none ∧
        "\n❌ Registration failed. Please check your Stripe credentials and try again."
          ∈ (run (Env.mk liveKey goodLocationResp goodListResp
              (.ok ⟨200, some (.obj [("id", .str "tmr_123")]), "ok"⟩))).output ∧
        registerRequest liveKey ∈
          (run (Env.mk liveKey goodLocationResp goodListResp
              (.ok ⟨200, some (.obj [("id", .str "tmr_123")]), "ok"⟩))).requests ∧
        remoteReaders (run (Env.mk liveKey goodLocationResp goodListResp
              (.ok ⟨200, some (.obj [("id", .str "tmr_123")]), "ok"⟩))).requests = [0]) :=
  ⟨by decide, rfl, rfl,
    C8_success_status_malformed_body
      (Env.mk liveKey goodLocationResp goodListResp
        (.ok ⟨200, some (.obj [("id", .str "tmr_123")]), "ok"⟩))
      goodLocationBody ⟨200, some (.obj [("id", .str "tmr_123")]), "ok"⟩
      (by decide) rfl rfl rfl
      (Or.inr ⟨_, rfl, Or.inr (Or.inl rfl)⟩)⟩

/-- C9: If the location lookup returns HTTP 200 but the body lacks
display_name, or lacks address.line1 or address.city, `verify_location`
returns an absent result and the workflow aborts with exit code 1 after
issuing only the location GET. -/
theorem C9_found_location_missing_fields_fatal (env : Env)
    (resp : HttpResponse) (loc : Json)
    (hk : env.key ≠ PLACEHOLDER_KEY)
    (hr : env.locResp = .ok resp)
    (hst : resp.status_code = 200)
    (hb : resp.body = some loc)
    (hbad : loc.get "display_name" = none ∨ loc.get "address" = none ∨
      ∃ addr, loc.get "address" = some addr ∧
        (addr.get "line1" = none ∨ addr.get "city" = none)) :
    (verify_location env.key env.locResp).value = none ∧
    (run env).exitCode = 1 ∧
    (run env).requests = [verifyRequest env.key] := by
  have hval : (verify_location env.key env.locResp).value = none := by
    rw [hr]
    rcases gd : loc.get "display_name" with _ | dn
    · simp [verify_location, verifyTryBody, hst, hb, gd]
    · rcases hbad with hmiss | hmiss | ⟨addr, ga, hmiss⟩
      · rw [gd] at hmiss; exact absurd hmiss (by simp)
      · simp [verify_location, verifyTryBody, hst, hb, gd, hmiss]
      · rcases hmiss with g1 | g1
        · simp [verify_location, verifyTryBody, hst, hb, gd, ga, g1]
        · rcases gl : addr.get "line1" with _ | l1
          · simp [verify_location, verifyTryBody, hst, hb, gd, ga, gl]
          · simp [verify_location, verifyTryBody, hst, hb, gd, ga, gl, g1]
  obtain ⟨h1, h2, -⟩ := run_not_verified env hk hval
  exact ⟨hval, h1, h2⟩

theorem C9_witness :
    liveKey ≠ PLACEHOLDER_KEY ∧ (200 : Nat) = 200 ∧
      (Json.obj [("display_name", .str "Ohr Shalom"),
        ("address", .obj [("line1", .str "123 Main St")])]).get "display_name"
        = some (.str "Ohr Shalom") ∧
      ((verify_location liveKey (.ok ⟨200, some (.obj
          [("display_name", .str "Ohr Shalom"),
           ("address", .obj [("line1", .str "123 Main St")])]), "found"⟩)).value
          = none ∧
        (run (Env.mk liveKey (.ok ⟨200, some (.obj
            [("display_name", .str "Ohr Shalom"),
             ("address", .obj [("line1", .str "123 Main St")])]), "found"⟩)
            (.exn "never") (.exn "never"))).exitCode = 1 ∧
        (run (Env.mk liveKey (.ok ⟨200, some (.obj
            [("display_name", .str "Ohr Shalom"),
             ("address", .obj [("line1", .str "123 Main St")])]), "found"⟩)
            (.exn "never") (.exn "never"))).requests = [verifyRequest liveKey]) :=
  ⟨by decide, rfl, rfl,
    C9_found_location_missing_fields_fatal
      (Env.mk liveKey (.ok ⟨200, some (.obj
          [("display_name", .str "Ohr Shalom"),
           ("address", .obj [("line1", .str "123 Main St")])]), "found"⟩)
        (.exn "never") (.exn "never"))
      ⟨200, some (.obj [("display_name", .str "Ohr Shalom"),
        ("address", .obj [("line1", .str "123 Main St")])]), "found"⟩
      (.obj [("display_name", .str "Ohr Shalom"),
        ("address", .obj [("line1", .str "123 Main St")])])
      (by decide) rfl rfl rfl
      (Or.inr (Or.inr ⟨.obj [("line1", .str "123 Main St")], rfl, Or.inr rfl⟩))⟩

/-- C10: each of the three operations is total with respect to
exceptions: whatever the network outcome, the function returns normally —
either its try-body value, or, when the try body raises, the fallback
value (None or the empty list) with the caught error line printed; no
exception propagates to the caller. -/
theorem C10_operations_catch_all_exceptions (key : String) (net : NetResult) :
    ((∃ v, (verifyTryBody net).2 = .ok v ∧
        (verify_location key net).value = v ∧
        (verify_location key net).output = (verifyTryBody net).1) ∨
      (∃ e, (verifyTryBody net).2 = .error e ∧
        (verify_location key net).value = none ∧
        (verify_location key net).output =
          (verifyTryBody net).1 ++ [verifyCatchLine e])) ∧
    ((∃ v, (listTryBody net).2 = .ok v ∧
        (list_existing_readers key net).value = v ∧
        (list_existing_readers key net).output = (listTryBody net).1) ∨
      (∃ e, (listTryBody net).2 = .error e ∧
        (list_existing_readers key net).value = [] ∧
        (list_existing_readers key net).output =
          (listTryBody net).1 ++ [listCatchLine e])) ∧
    ((∃ v, (registerTryBody net).2 = .ok v ∧
        (register_terminal_reader key net).value = v ∧
        (register_terminal_reader key net).output =
          registerPre ++ (registerTryBody net).1) ∨
      (∃ e, (registerTryBody net).2 = .error e ∧
        (register_terminal_reader key net).value = none ∧
        (register_terminal_reader key net).output =
          registerPre ++ (registerTryBody net).1 ++ [registerCatchLine e])) := by
  refine ⟨?_, ?_, ?_⟩
  · rcases h : verifyTryBody net with ⟨out, r⟩
    cases r with
    | ok v => exact Or.inl ⟨v, by simp [h], by simp [verify_location, h], by simp [verify_location, h]⟩
    | error e => exact Or.inr ⟨e, by simp [h], by simp [verify_location, h], by simp [verify_location, h]⟩
  · rcases h : listTryBody net with ⟨out, r⟩
    cases r with
    | ok v => exact Or.inl ⟨v, by simp [h], by simp [list_existing_readers, h], by simp [list_existing_readers, h]⟩
    | error e => exact Or.inr ⟨e, by simp [h], by simp [list_existing_readers, h], by simp [list_existing_readers, h]⟩
  · rcases h : registerTryBody net with ⟨out, r⟩
    cases r with
    | ok v => exact Or.inl ⟨v, by simp [h], by simp [register_terminal_reader, h], by simp [register_terminal_reader, h]⟩
    | error e => exact Or.inr ⟨e, by simp [h], by simp [register_terminal_reader, h], by simp [register_terminal_reader, h]⟩


/-- Helper for the no-success-claim properties: under a verified location
and a failed registration call, a line that is none of the fixed lines of
the run and does not start with any of the variable-line pieces cannot
appear in the run output. -/
lemma not_in_run_output_of_reg_fail (env : Env) (j : Json) (q : String)
    (hk : env.key ≠ PLACEHOLDER_KEY)
    (hv : (verify_location env.key env.locResp).value = some j)
    (hfail : (∃ e, env.regResp = .exn e) ∨
      ∃ resp, env.regResp = .ok resp ∧ resp.status_code ≠ 200)
    (hconc : q ∉ (["🚀 Stripe Terminal Reader Registration",
        String.mk (List.replicate 50 '='),
        "\n1️⃣ Verifying location...",
        "\n2️⃣ Checking existing readers...",
        "\n3️⃣ Registering tablet as Terminal reader...",
        "🔄 Registering tablet as Terminal reader...",
        "📍 Location: " ++ LOCATION_ID,
        "🏷️  Label: Ohr Shalom Donation Kiosk",
        "\n❌ Registration failed. Please check your Stripe credentials and try again."] : List String))
    (hpre : ∀ p ∈ (["✅ Location verified: ", "📍 Address: ", "\n📋 Found ", "  📱 ",
        "     Location: ", "❌ Failed to list readers: HTTP ",
        "❌ Error listing readers: ", "❌ Registration failed: HTTP ",
        "Error: ", "❌ Error registering reader: "] : List String),
        q.data.take p.data.length ≠ p.data) :
    q ∉ (run env).output := by
  obtain ⟨ht, dn, rest, hvout⟩ := verify_value_some hv
  obtain ⟨-, -, hrout⟩ := run_verified env j hk hv ht
  have hval := @register_value_none_of_fail env.key env.regResp hfail
  have hmt : mainTail (register_terminal_reader env.key env.regResp).value =
      ["\n❌ Registration failed. Please check your Stripe credentials and try again."] := by
    rw [hval]; rfl
  intro hmem
  rw [hrout, hvout, hmt] at hmem
  rcases hfail with ⟨e, he⟩ | ⟨resp, he, hs⟩
  · rw [he, register_output_of_exn] at hmem
    simp only [registerPre, registerCatchLine, List.append_assoc, List.mem_append,
      List.mem_cons, List.not_mem_nil, or_false] at hmem
    rcases hmem with (h|h|h) | (h|h) | h | hlist | h | (h|h|h) | h | h
    · exact hconc (by rw [h]; decide)
    · exact hconc (by rw [h]; decide)
    · exact hconc (by rw [h]; decide)
    · exact string_append_ne "✅ Location verified: " dn q (hpre _ (by decide)) h.symm
    · exact string_append_ne "📍 Address: " rest q (hpre _ (by decide)) h.symm
    · exact hconc (by rw [h]; decide)
    · rcases list_output_shape env.key env.listResp q hlist with
        ⟨t, h⟩ | ⟨t, h⟩ | ⟨t, h⟩ | ⟨t, h⟩ | ⟨t, h⟩
      · exact string_append_ne "\n📋 Found " t q (hpre _ (by decide)) h.symm
      · exact string_append_ne "  📱 " t q (hpre _ (by decide)) h.symm
      · exact string_append_ne "     Location: " t q (hpre _ (by decide)) h.symm
      · exact string_append_ne "❌ Failed to list readers: HTTP " t q (hpre _ (by decide)) h.symm
      · exact string_append_ne "❌ Error listing readers: " t q (hpre _ (by decide)) h.symm
    · exact hconc (by rw [h]; decide)
    · exact hconc (by rw [h]; decide)
    · exact hconc (by rw [h]; decide)
    · exact hconc (by rw [h]; decide)
    · exact string_append_ne "❌ Error registering reader: " e q (hpre _ (by decide)) h.symm
    · exact hconc (by rw [h]; decide)
  · rw [he, register_output_of_non200 hs] at hmem
    simp only [registerPre, List.append_assoc, List.mem_append,
      List.mem_cons, List.not_mem_nil, or_false] at hmem
    rcases hmem with (h|h|h) | (h|h) | h | hlist | h | (h|h|h) | (h|h) | h
    · exact hconc (by rw [h]; decide)
    · exact hconc (by rw [h]; decide)
    · exact hconc (by rw [h]; decide)
    · exact string_append_ne "✅ Location verified: " dn q (hpre _ (by decide)) h.symm
    · exact string_append_ne "📍 Address: " rest q (hpre _ (by decide)) h.symm
    · exact hconc (by rw [h]; decide)
    · rcases list_output_shape env.key env.listResp q hlist with
        ⟨t, h⟩ | ⟨t, h⟩ | ⟨t, h⟩ | ⟨t, h⟩ | ⟨t, h⟩
      · exact string_append_ne "\n📋 Found " t q (hpre _ (by decide)) h.symm
      · exact string_append_ne "  📱 " t q (hpre _ (by decide)) h.symm
      · exact string_append_ne "     Location: " t q (hpre _ (by decide)) h.symm
      · exact string_append_ne "❌ Failed to list readers: HTTP " t q (hpre _ (by decide)) h.symm
      · exact string_append_ne "❌ Error listing readers: " t q (hpre _ (by decide)) h.symm
    · exact hconc (by rw [h]; decide)
    · exact hconc (by rw [h]; decide)
    · exact hconc (by rw [h]; decide)
    · exact hconc (by rw [h]; decide)
    · exact string_append_ne "❌ Registration failed: HTTP " (toString resp.status_code) q
        (hpre _ (by decide)) h.symm
    · exact string_append_ne "Error: " resp.text q (hpre _ (by decide)) h.symm
    · exact hconc (by rw [h]; decide)

/-- C5: If the registration call returns a non-success HTTP status or
raises a transport exception, `register_terminal_reader` returns an
absent result, and the workflow reports failure and does not claim
success (neither the success line nor the Next Steps block is printed). -/
theorem C5_failed_registration_reports_failure (env : Env) (j : Json)
    (hk : env.key ≠ PLACEHOLDER_KEY)
    (hv : (verify_location env.key env.locResp).value = some j)
    (hfail : (∃ e, env.regResp = .exn e) ∨
      ∃ resp, env.regResp = .ok resp ∧ resp.status_code ≠ 200) :
    (register_terminal_reader env.key env.regResp).value = none ∧
    "\n❌ Registration failed. Please check your Stripe credentials and try again."
      ∈ (run env).output ∧
    "✅ Terminal reader registered successfully!" ∉ (run env).output ∧
    "\n🎯 Next Steps:" ∉ (run env).output := by
  have hval := @register_value_none_of_fail env.key env.regResp hfail
  obtain ⟨ht, dn, rest, hvout⟩ := verify_value_some hv
  obtain ⟨-, -, hrout⟩ := run_verified env j hk hv ht
  have hmt : mainTail (register_terminal_reader env.key env.regResp).value =
      ["\n❌ Registration failed. Please check your Stripe credentials and try again."] := by
    rw [hval]; rfl
  refine ⟨hval, ?_, ?_, ?_⟩
  · rw [hrout, hmt]; simp
  · exact not_in_run_output_of_reg_fail env j _ hk hv hfail (by decide) (by decide)
  · exact not_in_run_output_of_reg_fail env j _ hk hv hfail (by decide) (by decide)

/-- The HTTP 400 response of the C5 spec example. -/
def badRegisterResp : NetResult :=
  .ok { status_code := 400,
        body := some (.obj [("error", .str "invalid_metadata")]),
        text := "\x7b\"error\": \"invalid_metadata\"\x7d" }

theorem C5_witness :
    liveKey ≠ PLACEHOLDER_KEY ∧ (400 : Nat) ≠ 200 ∧
      ((register_terminal_reader liveKey badRegisterResp).value = none ∧
        "\n❌ Registration failed. Please check your Stripe credentials and try again."
          ∈ (run (Env.mk liveKey goodLocationResp goodListResp badRegisterResp)).output ∧
        "✅ Terminal reader registered successfully!"
          ∉ (run (Env.mk liveKey goodLocationResp goodListResp badRegisterResp)).output ∧
        "\n🎯 Next Steps:"
          ∉ (run (Env.mk liveKey goodLocationResp goodListResp badRegisterResp)).output) :=
  ⟨by decide, by decide,
    C5_failed_registration_reports_failure
      (Env.mk liveKey goodLocationResp goodListResp badRegisterResp)
      goodLocationBody (by decide) rfl
      (Or.inr ⟨_, rfl, by decide⟩)⟩

end RegisterReaderScript
